import Mathlib

/-!
Shallow embedding of the row-resolution reconciliation pass of `bddoc.py`
(repository `sithlord68/bd`).

The external world (HTTP fetches, HTML parsing, the operator's keyboard) is
modelled as an explicit environment `Env` of oracles; the functions
`search_online_bdgest`, `get_bedetheque_link_from_album`, `get_cover_url`,
`process_row` and the driver loop `run_rows` are direct translations of the
Python functions of the same names.  Cell values are `Option String`
(`none` models a missing cell, i.e. `pd.isna`).  The stream of operator
inputs is a `List String`; an exhausted stream reads as the empty string.
-/

namespace BdDoc

/-! ## String helpers with Python semantics

Python's `str.strip`, `str.lower`, `str.startswith` and the substring test
`pat in s` are re-implemented over `List Char` so that every definition is
executable and kernel-reducible. -/

/-- Whitespace characters stripped by Python's `str.strip()`. -/
def isWS (c : Char) : Bool :=
  c == ' ' || c == '\t' || c == '\n' || c == '\r' || c == '\x0b' || c == '\x0c'

/-- Python `s.strip()`: remove leading and trailing whitespace. -/
def trimS (s : String) : String :=
  ⟨((s.data.dropWhile isWS).reverse.dropWhile isWS).reverse⟩

/-- Python `s.lower()` (ASCII case folding suffices for this program). -/
def lowerS (s : String) : String :=
  ⟨s.data.map Char.toLower⟩

/-- `leadsWith pat l` is true when `pat` is an initial segment of `l`. -/
def leadsWith : List Char → List Char → Bool
  | [], _ => true
  | _ :: _, [] => false
  | p :: ps, c :: cs => p == c && leadsWith ps cs

/-- Python `s.startswith(pat)`. -/
def strStarts (s pat : String) : Bool :=
  leadsWith pat.data s.data

/-- `hasSub pat l` is true when `pat` occurs contiguously inside `l`. -/
def hasSub (pat : List Char) : List Char → Bool
  | [] => leadsWith pat []
  | c :: cs => leadsWith pat (c :: cs) || hasSub pat cs

/-- Python `pat in s` (substring containment). -/
def strHas (s pat : String) : Bool :=
  hasSub pat.data s.data

/-- Python `len(s)`: number of characters. -/
def lenS (s : String) : Nat :=
  s.data.length

/-! ## Constants (`bddoc.py`, lines 17–38) -/

/-- Minimum length to consider a cover URL valid (`MIN_COVER_LENGTH = 15`). -/
def MIN_COVER_LENGTH : Nat := 15

/-- `BASE_URL = "https://online.bdgest.com"`. -/
def BASE_URL : String := "https://online.bdgest.com"

/-- `IMPORT_URL = f"{BASE_URL}/albums/import"`. -/
def IMPORT_URL : String := BASE_URL ++ "/albums/import"

/-- 0-based column of the title (`TITLE_COL = 6`). -/
def TITLE_COL : Nat := 6

/-- 0-based column of the link (`LINK_COL = 10`). -/
def LINK_COL : Nat := 10

/-- 0-based column of the cover (`COVER_COL = 24`). -/
def COVER_COL : Nat := 24

/-! ## Cell values and cover validity -/

/-- `str(cell) if not pd.isna(cell) else ""`. -/
def cellToStr : Option String → String
  | none => ""
  | some s => s

/-- Python truthiness of an optional string: `None` and `""` are falsy. -/
def optTruthy : Option String → Bool
  | none => false
  | some s => s != ""

/-- `is_valid_cover` (`bddoc.py`, lines 56–61): `pd.isna` is false, and the
stripped string has length at least `MIN_COVER_LENGTH` and starts with
`"http"`. -/
def is_valid_cover : Option String → Bool
  | none => false
  | some cover =>
    let cover_str := trimS cover
    decide (MIN_COVER_LENGTH ≤ lenS cover_str) && strStarts cover_str "http"

/-! ## Operator input and the interactive-mode latch -/

/-- `wait_for_user` (`bddoc.py`, lines 63–69): in interactive mode read one
line; the sentinel `'go'` (stripped, lowercased) switches to
non-interactive.  In non-interactive mode nothing is read.  Returns the new
mode and the remaining input stream (an exhausted stream reads `""`). -/
def wait_for_user (interactive_mode : Bool) (inputs : List String) :
    Bool × List String :=
  if interactive_mode then
    match inputs with
    | [] => (interactive_mode, [])
    | i :: rest =>
      if lowerS (trimS i) = "go" then (false, rest) else (interactive_mode, rest)
  else (interactive_mode, inputs)

/-! ## The external world -/

/-- One candidate in the search-results page: its display text (which the
code never reads) and the `href` attributes of its `<a>` elements, in
document order. -/
structure SearchResult where
  text : String
  hrefs : List String
  deriving DecidableEq

/-- A fetched and parsed search-results page: the candidate list produced by
the first matching CSS selector (empty when every selector fails) and the
final response URL. -/
structure SearchPage where
  results : List SearchResult
  url : String
  deriving DecidableEq

/-- A fetched album detail page: the `href`s of its `<a>` elements whose
`href` matches the regex `bedetheque\.com`, in document order. -/
structure AlbumPage where
  bedethequeLinks : List String
  deriving DecidableEq

/-- A fetched bedetheque detail page, reduced to the three places the cover
extraction looks at: the `content` of `<meta property="og:image">`, the
`src` of `<img class="cover">`, and the `src` of the first `<img>` inside
the content area (`div.content` or `div.album-detail`).  `none` models an
absent tag or attribute; an empty string models a present-but-empty
attribute (falsy in Python either way). -/
structure CoverDoc where
  ogImage : Option String
  coverImgSrc : Option String
  contentImgSrc : Option String
  deriving DecidableEq

/-- The external fetch/parse capability.  `Except.error ()` models any
exception raised by a fetch (timeout, non-2xx via `raise_for_status`,
network error).  `urljoin` is the `urllib` collaborator. -/
structure Env where
  importOk : Bool
  searchPage : String → Except Unit SearchPage
  albumFetch : String → Except Unit AlbumPage
  coverFetch : String → Except Unit CoverDoc
  urljoin : String → String → String

/-! ## `get_bedetheque_link_from_album` (`bddoc.py`, lines 247–269) -/

/-- Output of the album-page helper.  The Python function returns only the
link; its local update of `interactive_mode` is discarded by the caller,
but the operator input it consumes is gone from the stream.  `errLog`
collects the `logging.error` message of the exception handler. -/
structure AlbumOut where
  link : Option String
  inputs : List String
  errLog : List String
  deriving DecidableEq

/-- Fetch the album page; on success pause for the operator and return the
first `href` matching `bedetheque\.com`; on any exception log and return
`None`. -/
def get_bedetheque_link_from_album (env : Env) (album_url : String)
    (interactive_mode : Bool) (inputs : List String) : AlbumOut :=
  match env.albumFetch album_url with
  | .error _ =>
    { link := none, inputs := inputs,
      errLog := ["Error getting bedetheque link from album page"] }
  | .ok page =>
    let (_m, inputs) := wait_for_user interactive_mode inputs
    { link := page.bedethequeLinks.head?, inputs := inputs, errLog := [] }

/-- The pure link component of `get_bedetheque_link_from_album`: it does not
depend on the mode or the input stream. -/
def album_link_result (env : Env) (album_url : String) : Option String :=
  match env.albumFetch album_url with
  | .error _ => none
  | .ok page => page.bedethequeLinks.head?

/-! ## `search_online_bdgest` (`bddoc.py`, lines 169–245) -/

/-- Inner loop over the `<a href>`s of one search result
(`bddoc.py`, lines 221–234): an `href` containing `bedetheque.com` is
returned at once; an `href` containing `/album/` is resolved via the album
page and returned if that yields a (truthy) link; otherwise continue. -/
def scanLinks (env : Env) (interactive_mode : Bool) :
    List String → List String → Option String × List String × List String
  | [], inputs => (none, inputs, [])
  | href :: rest, inputs =>
    if strHas href "bedetheque.com" then (some href, inputs, [])
    else if strHas href "/album/" then
      let a := get_bedetheque_link_from_album env (env.urljoin BASE_URL href)
        interactive_mode inputs
      if optTruthy a.link then (a.link, a.inputs, a.errLog)
      else
        match scanLinks env interactive_mode rest a.inputs with
        | (r, inputs2, errs) => (r, inputs2, a.errLog ++ errs)
    else scanLinks env interactive_mode rest inputs

/-- Outer loop over the candidate results (`bddoc.py`, line 219): only the
display-order list passed in is scanned, first hit wins.  The candidate's
`text` field is never read. -/
def scanResults (env : Env) (interactive_mode : Bool) :
    List SearchResult → List String → Option String × List String × List String
  | [], inputs => (none, inputs, [])
  | r :: rest, inputs =>
    match scanLinks env interactive_mode r.hrefs inputs with
    | (some u, inputs2, errs) => (some u, inputs2, errs)
    | (none, inputs2, errs) =>
      match scanResults env interactive_mode rest inputs2 with
      | (r2, inputs3, errs2) => (r2, inputs3, errs ++ errs2)

/-- Output of `search_online_bdgest`: the found link (or `none`), the search
URL reported for the audit line, the updated interactive mode, the
remaining input stream and the error-level log messages. -/
structure SearchOut where
  link : Option String
  searchUrl : String
  mode : Bool
  inputs : List String
  errLog : List String
  deriving DecidableEq

/-- `search_online_bdgest`: fetch the import page, pause, run the search,
pause, then scan the first three results for a bedetheque link.  Any
exception is caught, logged, and yields `(None, IMPORT_URL)`; the mode
updates made before the exception survive (the Python local variable). -/
def search_online_bdgest (env : Env) (comic_name : String)
    (interactive_mode : Bool) (inputs : List String) : SearchOut :=
  if env.importOk then
    let (interactive_mode, inputs) := wait_for_user interactive_mode inputs
    match env.searchPage comic_name with
    | .error _ =>
      { link := none, searchUrl := IMPORT_URL, mode := interactive_mode,
        inputs := inputs,
        errLog := ["Online BDGest search error for " ++ comic_name] }
    | .ok page =>
      let (interactive_mode, inputs) := wait_for_user interactive_mode inputs
      if page.results.isEmpty then
        { link := none, searchUrl := page.url, mode := interactive_mode,
          inputs := inputs, errLog := [] }
      else
        match scanResults env interactive_mode (page.results.take 3) inputs with
        | (r, inputs2, errs) =>
          { link := r, searchUrl := page.url, mode := interactive_mode,
            inputs := inputs2, errLog := errs }
  else
    { link := none, searchUrl := IMPORT_URL, mode := interactive_mode,
      inputs := inputs,
      errLog := ["Online BDGest search error for " ++ comic_name] }

/-! ## `get_cover_url` (`bddoc.py`, lines 271–334) -/

/-- Keep a present, non-empty string; collapse an absent or empty (falsy)
one to `none`. -/
def optNonEmpty : Option String → Option String
  | none => none
  | some s => if s = "" then none else some s

/-- Normalisation of an `img src` (`bddoc.py`, lines 305–310 and 320–325):
protocol-relative and site-relative sources are made absolute. -/
def normalizeSrc (src : String) : String :=
  if strStarts src "//" then "https:" ++ src
  else if strStarts src "/" then "https://www.bedetheque.com" ++ src
  else src

/-- The ordered extraction strategies over a fetched bedetheque page
(`bddoc.py`, lines 293–330): `og:image` content verbatim, then
`img.cover` src (normalised), then the first content-area image src
(normalised); all absent yields `none` (no cover found, not an error). -/
def extract_cover (doc : CoverDoc) : Option String :=
  match optNonEmpty doc.ogImage with
  | some cover_url => some cover_url
  | none =>
    match optNonEmpty doc.coverImgSrc with
    | some src => some (normalizeSrc src)
    | none =>
      match optNonEmpty doc.contentImgSrc with
      | some src => some (normalizeSrc src)
      | none => none

/-- Output of `get_cover_url`.  The Python function returns only the cover
URL; its local `interactive_mode` update is discarded by the caller, but
the consumed operator input is gone from the stream. -/
structure CoverOut where
  cover : Option String
  inputs : List String
  errLog : List String
  deriving DecidableEq

/-- `get_cover_url`: fetch the bedetheque page, pause for the operator,
extract the cover; any exception is caught, logged, and yields `None`. -/
def get_cover_url (env : Env) (bedetheque_url : String)
    (interactive_mode : Bool) (inputs : List String) : CoverOut :=
  match env.coverFetch bedetheque_url with
  | .error _ =>
    { cover := none, inputs := inputs,
      errLog := ["Cover fetch error for " ++ bedetheque_url] }
  | .ok doc =>
    let (_m, inputs) := wait_for_user interactive_mode inputs
    { cover := extract_cover doc, inputs := inputs, errLog := [] }

/-! ## `process_row` (`bddoc.py`, lines 336–417) -/

/-- One spreadsheet record, reduced to the three cells the pass reads
(columns `TITLE_COL`, `LINK_COL`, `COVER_COL`).  `none` is a missing cell
(`pd.isna`). -/
structure Row where
  title : Option String
  link : Option String
  cover : Option String
  deriving DecidableEq

/-- The per-case result of the decision table of `process_row`
(`bddoc.py`, lines 366–396), before the common print/log/pause tail. -/
structure CaseOut where
  linkUpdate : Option String
  coverUpdate : Option String
  status : String
  fileStatus : String
  searchUrl : String
  coverUrl : String
  updated : Bool
  searchCalls : Nat
  coverCalls : Nat
  mode : Bool
  inputs : List String
  errLog : List String
  deriving DecidableEq

/-- The observable outcome of `process_row`: the cell writes
(`df.at[index, LINK_COL]`, `df.at[index, COVER_COL]`), the printed terminal
status lines, the appended audit entries (as ordered field lists, joined by
commas in the Python source), the number of search and cover lookups, the
returned interactive mode, the remaining operator inputs, and the
error-level log messages.  The five `DEBUG` prints of lines 360–364 are
diagnostic output, not status lines, and are not modelled. -/
structure RowOutcome where
  linkUpdate : Option String
  coverUpdate : Option String
  terminal : List String
  audit : List (List String)
  searchCalls : Nat
  coverCalls : Nat
  mode : Bool
  inputs : List String
  errLog : List String
  deriving DecidableEq

/-- `x if x else 'empty'` for the audit-line fields. -/
def fieldOrEmpty (s : String) : String :=
  if s = "" then "empty" else s

/-- The ordered decision table of `process_row` (`bddoc.py`, lines 366–396),
evaluated on the stripped title, link and cover; the three guards are
exhaustive, the final `else` branch is reached exactly when the link is
empty.  `now` stands for `datetime.now().strftime('%m%d %H%M')`. -/
def row_cases (env : Env) (now : String) (index : Nat)
    (comic_name current_link current_cover : String)
    (interactive_mode : Bool) (inputs : List String) : CaseOut :=
  if current_link ≠ "" ∧ is_valid_cover (some current_cover) = true then
    { linkUpdate := none, coverUpdate := none,
      status := "[" ++ now ++ "] - Row: " ++ toString index ++ " - " ++
        comic_name ++ " - link: filled - Result: Skipping - Cover: exists",
      fileStatus := "Skipping (both exist)", searchUrl := "", coverUrl := "",
      updated := false, searchCalls := 0, coverCalls := 0,
      mode := interactive_mode, inputs := inputs, errLog := [] }
  else if current_link ≠ "" ∧ is_valid_cover (some current_cover) = false then
    let co := get_cover_url env current_link interactive_mode inputs
    if optTruthy co.cover then
      { linkUpdate := none, coverUpdate := co.cover,
        status := "[" ++ now ++ "] - Row: " ++ toString index ++ " - " ++
          comic_name ++ " - link: filled - Result: Found - Cover: found",
        fileStatus := "Found (cover)", searchUrl := "",
        coverUrl := co.cover.getD "",
        updated := true, searchCalls := 0, coverCalls := 1,
        mode := interactive_mode, inputs := co.inputs, errLog := co.errLog }
    else
      { linkUpdate := none, coverUpdate := none,
        status := "[" ++ now ++ "] - Row: " ++ toString index ++ " - " ++
          comic_name ++ " - link: filled - Result: Found - Cover: not found",
        fileStatus := "Found (no cover)", searchUrl := "",
        coverUrl := co.cover.getD "",
        updated := false, searchCalls := 0, coverCalls := 1,
        mode := interactive_mode, inputs := co.inputs, errLog := co.errLog }
  else
    let so := search_online_bdgest env comic_name interactive_mode inputs
    if optTruthy so.link then
      let new_link := so.link.getD ""
      let co := get_cover_url env new_link so.mode so.inputs
      { linkUpdate := some new_link,
        coverUpdate := if optTruthy co.cover then co.cover else none,
        status := "[" ++ now ++ "] - Row: " ++ toString index ++ " - " ++
          comic_name ++ " - link: empty - Result: Found - Cover: " ++
          (if optTruthy co.cover then "found" else "not found"),
        fileStatus := "Found (new)", searchUrl := so.searchUrl,
        coverUrl := co.cover.getD "",
        updated := true, searchCalls := 1, coverCalls := 1,
        mode := so.mode, inputs := co.inputs,
        errLog := so.errLog ++ co.errLog }
    else
      { linkUpdate := none, coverUpdate := none,
        status := "[" ++ now ++ "] - Row: " ++ toString index ++ " - " ++
          comic_name ++ " - link: empty - Result: not Found - Cover: n/a",
        fileStatus := "not Found", searchUrl := so.searchUrl, coverUrl := "",
        updated := false, searchCalls := 1, coverCalls := 0,
        mode := so.mode, inputs := so.inputs, errLog := so.errLog }

/-- `process_row` (`bddoc.py`, lines 336–417): strip the three cells, return
immediately on an empty title, otherwise evaluate the decision table, print
exactly one terminal status line, append exactly one audit entry in fixed
field order, and, if still interactive and a mutation occurred, pause for
the operator (the only place the final mode can change again).
`dateYMD`/`timeHMS` stand for the two `strftime` calls of the log entry. -/
def process_row (env : Env) (now dateYMD timeHMS : String) (index : Nat)
    (row : Row) (interactive_mode : Bool) (inputs : List String) : RowOutcome :=
  let comic_name := trimS (cellToStr row.title)
  let current_link := trimS (cellToStr row.link)
  let current_cover := trimS (cellToStr row.cover)
  if comic_name = "" then
    { linkUpdate := none, coverUpdate := none, terminal := [], audit := [],
      searchCalls := 0, coverCalls := 0, mode := interactive_mode,
      inputs := inputs, errLog := [] }
  else
    let c := row_cases env now index comic_name current_link current_cover
      interactive_mode inputs
    let fin := if c.mode && c.updated then wait_for_user c.mode c.inputs
      else (c.mode, c.inputs)
    { linkUpdate := c.linkUpdate, coverUpdate := c.coverUpdate,
      terminal := [c.status],
      audit := [[dateYMD, timeHMS, "Row", toString index, comic_name,
        fieldOrEmpty current_link, c.fileStatus, fieldOrEmpty c.searchUrl,
        fieldOrEmpty c.coverUrl]],
      searchCalls := c.searchCalls, coverCalls := c.coverCalls,
      mode := fin.1, inputs := fin.2, errLog := c.errLog }

/-! ## The driver loop of `process_excel_file` (`bddoc.py`, lines 436–446) -/

/-- The loop's skip guard: `if index < 3 or pd.isna(row[TITLE_COL])`. -/
def driver_skips (index : Nat) (row : Row) : Bool :=
  decide (index < 3) || row.title.isNone

/-- Apply a row's cell writes to the row (`df.at` mutations only ever touch
the row being processed). -/
def applyOutcome (row : Row) (o : RowOutcome) : Row :=
  { title := row.title,
    link := match o.linkUpdate with | some l => some l | none => row.link,
    cover := match o.coverUpdate with | some c => some c | none => row.cover }

/-- Number of cells written by one row's processing. -/
def countUpd (o : RowOutcome) : Nat :=
  (if o.linkUpdate.isSome then 1 else 0) +
    (if o.coverUpdate.isSome then 1 else 0)

/-- Aggregate observable outcome of a run of the driver loop. -/
structure RunOut where
  table : List (Nat × Row)
  searchCalls : Nat
  coverCalls : Nat
  mutations : Nat
  terminal : List String
  audit : List (List String)
  errLog : List String
  mode : Bool
  inputs : List String
  deriving DecidableEq

/-- The driver loop: iterate the indexed rows in order, skip per
`driver_skips`, otherwise run `process_row`, apply its writes, and thread
the interactive mode and input stream to the next row.  (The per-row
`df.to_excel` persist has no bearing on the claims and is not modelled.) -/
def run_rows (env : Env) (now dateYMD timeHMS : String) :
    List (Nat × Row) → Bool → List String → RunOut
  | [], interactive_mode, inputs =>
    { table := [], searchCalls := 0, coverCalls := 0, mutations := 0,
      terminal := [], audit := [], errLog := [], mode := interactive_mode,
      inputs := inputs }
  | (index, row) :: rest, interactive_mode, inputs =>
    if driver_skips index row then
      let out := run_rows env now dateYMD timeHMS rest interactive_mode inputs
      { out with table := (index, row) :: out.table }
    else
      let o := process_row env now dateYMD timeHMS index row interactive_mode
        inputs
      let out := run_rows env now dateYMD timeHMS rest o.mode o.inputs
      { table := (index, applyOutcome row o) :: out.table,
        searchCalls := o.searchCalls + out.searchCalls,
        coverCalls := o.coverCalls + out.coverCalls,
        mutations := countUpd o + out.mutations,
        terminal := o.terminal ++ out.terminal,
        audit := o.audit ++ out.audit,
        errLog := o.errLog ++ out.errLog,
        mode := out.mode, inputs := out.inputs }

/-! ## Helper lemmas -/

theorem wait_false (inputs : List String) :
    wait_for_user false inputs = (false, inputs) := rfl

theorem album_link_eq (env : Env) (u : String) (mode : Bool)
    (inputs : List String) :
    (get_bedetheque_link_from_album env u mode inputs).link =
      album_link_result env u := by
  unfold get_bedetheque_link_from_album album_link_result
  cases hf : env.albumFetch u with
  | error e => rfl
  | ok page => rfl

theorem search_mode_false (env : Env) (name : String) (inputs : List String) :
    (search_online_bdgest env name false inputs).mode = false := by
  unfold search_online_bdgest
  cases h : env.importOk with
  | false => simp
  | true =>
    simp only [if_true, wait_false]
    cases hp : env.searchPage name with
    | error e => rfl
    | ok page =>
      simp only [wait_false]
      by_cases he : page.results.isEmpty
      · simp [he]
      · simp only [he, if_false]
        rcases hs : scanResults env false (page.results.take 3) inputs with
          ⟨r, inputs2, errs⟩
        simp [hs]

theorem row_cases_mode_false (env : Env) (now : String) (index : Nat)
    (name lnk cov : String) (inputs : List String) :
    (row_cases env now index name lnk cov false inputs).mode = false := by
  unfold row_cases
  split_ifs with h1 h2
  · rfl
  · by_cases hc : optTruthy (get_cover_url env lnk false inputs).cover
    · simp [hc]
    · simp [hc]
  · by_cases hl : optTruthy (search_online_bdgest env name false inputs).link
    · simp [hl, search_mode_false]
    · simp [hl, search_mode_false]

theorem process_row_mode_false (env : Env) (now dateYMD timeHMS : String)
    (index : Nat) (row : Row) (inputs : List String) :
    (process_row env now dateYMD timeHMS index row false inputs).mode = false := by
  unfold process_row
  by_cases ht : trimS (cellToStr row.title) = ""
  · simp [ht]
  · simp only [ht, if_false]
    have hm := row_cases_mode_false env now index (trimS (cellToStr row.title))
      (trimS (cellToStr row.link)) (trimS (cellToStr row.cover)) inputs
    simp [hm]

theorem run_rows_mode_false (env : Env) (now dateYMD timeHMS : String)
    (rows : List (Nat × Row)) (inputs : List String) :
    (run_rows env now dateYMD timeHMS rows false inputs).mode = false := by
  induction rows generalizing inputs with
  | nil => rfl
  | cons p rest ih =>
    rcases p with ⟨index, row⟩
    unfold run_rows
    by_cases hs : driver_skips index row
    · simp [hs, ih]
    · have hm := process_row_mode_false env now dateYMD timeHMS index row inputs
      simp [hs, hm, ih]

/-! ## Claims -/

/-- C4: the cover-validity predicate holds iff the value is present (not
missing), its trimmed form is non-empty, begins with the scheme prefix
`"http"`, and has length at least `MIN_COVER_LENGTH`; any missing, empty,
too-short, or non-http-prefixed value is judged invalid. -/
theorem C4_cover_validity :
    is_valid_cover none = false ∧
    ∀ s : String,
      is_valid_cover (some s) = true ↔
        (trimS s ≠ "" ∧ strStarts (trimS s) "http" = true ∧
          MIN_COVER_LENGTH ≤ lenS (trimS s)) := by
  refine ⟨rfl, fun s => ?_⟩
  unfold is_valid_cover
  simp only [Bool.and_eq_true, decide_eq_true_eq]
  constructor
  · rintro ⟨hlen, hst⟩
    refine ⟨?_, hst, hlen⟩
    intro he
    rw [he] at hlen
    simp [lenS, MIN_COVER_LENGTH] at hlen
  · rintro ⟨_hne, hst, hlen⟩
    exact ⟨hlen, hst⟩

/-- C4 witness: a concrete valid value and the predicate evaluated through
the theorem. -/
theorem C4_cover_validity_witness :
    is_valid_cover (some " https://www.bedetheque.com/c.jpg ") = true :=
  (C4_cover_validity.2 " https://www.bedetheque.com/c.jpg ").mpr
    ⟨by decide, by decide, by decide⟩

/-- C3: cover-lookup tries the ordered strategies `og:image` content, then
`img.cover` src, then a content-area image src, returning the value of the
first that is non-empty; if all fail it returns `none` ("no cover found",
not an error); and a fetched document whose metadata cover tag has value
`"https://example.com/cover.jpg"` yields exactly that string. -/
theorem C3_cover_extraction :
    (∀ (doc : CoverDoc) (c : String), doc.ogImage = some c → c ≠ "" →
      extract_cover doc = some c) ∧
    (∀ (doc : CoverDoc) (s : String), optNonEmpty doc.ogImage = none →
      doc.coverImgSrc = some s → s ≠ "" →
      extract_cover doc = some (normalizeSrc s)) ∧
    (∀ (doc : CoverDoc) (s : String), optNonEmpty doc.ogImage = none →
      optNonEmpty doc.coverImgSrc = none → doc.contentImgSrc = some s →
      s ≠ "" → extract_cover doc = some (normalizeSrc s)) ∧
    (∀ doc : CoverDoc, optNonEmpty doc.ogImage = none →
      optNonEmpty doc.coverImgSrc = none →
      optNonEmpty doc.contentImgSrc = none → extract_cover doc = none) ∧
    (∀ (env : Env) (url : String) (mode : Bool) (inputs : List String)
        (doc : CoverDoc),
      env.coverFetch url = .ok doc →
      doc.ogImage = some "https://example.com/cover.jpg" →
      (get_cover_url env url mode inputs).cover =
        some "https://example.com/cover.jpg") := by
  refine ⟨?_, ?_, ?_, ?_, ?_⟩
  · intro doc c hog hc
    simp [extract_cover, optNonEmpty, hog, hc]
  · intro doc s hog hsrc hs
    unfold extract_cover
    rw [hog]
    simp [optNonEmpty, hsrc, hs]
  · intro doc s hog hcov hsrc hs
    unfold extract_cover
    rw [hog, hcov]
    simp [optNonEmpty, hsrc, hs]
  · intro doc hog hcov hcon
    simp [extract_cover, hog, hcov, hcon]
  · intro env url mode inputs doc hf hog
    unfold get_cover_url
    rw [hf]
    have : extract_cover doc = some "https://example.com/cover.jpg" := by
      simp [extract_cover, optNonEmpty, hog]
    simp [this]

/-- C3 witness: the synthetic fetch capability of the claim, evaluated
through the theorem at a concrete document. -/
theorem C3_cover_extraction_witness :
    (get_cover_url
      { importOk := true, searchPage := fun _ => .error (),
        albumFetch := fun _ => .error (),
        coverFetch := fun _ => .ok
          { ogImage := some "https://example.com/cover.jpg",
            coverImgSrc := none, contentImgSrc := none },
        urljoin := fun _ h => h }
      "https://www.bedetheque.com/serie-1" false []).cover =
      some "https://example.com/cover.jpg" :=
  C3_cover_extraction.2.2.2.2 _ "https://www.bedetheque.com/serie-1" false []
    { ogImage := some "https://example.com/cover.jpg",
      coverImgSrc := none, contentImgSrc := none } rfl rfl

/-- C6: the interactive/non-interactive mode is a one-way latch threaded as
an explicit parameter and return value: the sentinel `'go'` switches the
run to non-interactive, and once the mode is non-interactive, no prompt,
search, row-processing call, or sequence of row-processing calls ever
returns it to interactive. -/
theorem C6_mode_latch :
    (∀ inputs : List String, wait_for_user false inputs = (false, inputs)) ∧
    (∀ rest : List String, wait_for_user true ("go" :: rest) = (false, rest)) ∧
    (∀ (env : Env) (name : String) (inputs : List String),
      (search_online_bdgest env name false inputs).mode = false) ∧
    (∀ (env : Env) (now dateYMD timeHMS : String) (index : Nat) (row : Row)
        (inputs : List String),
      (process_row env now dateYMD timeHMS index row false inputs).mode =
        false) ∧
    (∀ (env : Env) (now dateYMD timeHMS : String) (rows : List (Nat × Row))
        (inputs : List String),
      (run_rows env now dateYMD timeHMS rows false inputs).mode = false) := by
  refine ⟨fun inputs => rfl, fun rest => rfl, search_mode_false, ?_, ?_⟩
  · intro env now dateYMD timeHMS index row inputs
    exact process_row_mode_false env now dateYMD timeHMS index row inputs
  · intro env now dateYMD timeHMS rows inputs
    exact run_rows_mode_false env now dateYMD timeHMS rows inputs

/-- An environment in which every fetch raises (used by concrete witnesses). -/
def envFail : Env :=
  { importOk := false, searchPage := fun _ => .error (),
    albumFetch := fun _ => .error (), coverFetch := fun _ => .error (),
    urljoin := fun _ h => h }

/-- C10: a row whose title cell is present but whitespace-only is not
skipped by the driver loop's guard, yet its processing returns immediately
after trimming: no lookup, no cell write, no terminal status line, no audit
line, mode and input stream unchanged. -/
theorem C10_whitespace_title (env : Env) (now dateYMD timeHMS : String)
    (index : Nat) (row : Row) (mode : Bool) (inputs : List String) (s : String)
    (hi : 3 ≤ index) (ht : row.title = some s) (hs : trimS s = "") :
    driver_skips index row = false ∧
    process_row env now dateYMD timeHMS index row mode inputs =
      { linkUpdate := none, coverUpdate := none, terminal := [], audit := [],
        searchCalls := 0, coverCalls := 0, mode := mode, inputs := inputs,
        errLog := [] } := by
  constructor
  · simp [driver_skips, ht]
    omega
  · unfold process_row
    simp [ht, cellToStr, hs]

/-- C10 witness: a concrete whitespace-only title at row index 3. -/
theorem C10_whitespace_title_witness :
    driver_skips 3 { title := some "   ", link := none, cover := none } =
      false ∧
    process_row envFail "n" "d" "t" 3
      { title := some "   ", link := none, cover := none } true ["x"] =
      { linkUpdate := none, coverUpdate := none, terminal := [], audit := [],
        searchCalls := 0, coverCalls := 0, mode := true, inputs := ["x"],
        errLog := [] } :=
  C10_whitespace_title envFail "n" "d" "t" 3
    { title := some "   ", link := none, cover := none } true ["x"] "   "
    (by decide) rfl (by decide)

/-- C5: a failure of the external fetch capability during search or cover
lookup is recovered locally: the lookup yields no result, the failure is
logged, the row's processing is an ordinary total outcome, and the driver
loop continues with the remaining rows. -/
theorem C5_fetch_failure_recovery :
    (∀ (env : Env) (name : String) (mode : Bool) (inputs : List String),
      env.importOk = false →
      (search_online_bdgest env name mode inputs).link = none ∧
      (search_online_bdgest env name mode inputs).errLog ≠ []) ∧
    (∀ (env : Env) (name : String) (mode : Bool) (inputs : List String),
      env.searchPage name = .error () →
      (search_online_bdgest env name mode inputs).link = none ∧
      (search_online_bdgest env name mode inputs).errLog ≠ []) ∧
    (∀ (env : Env) (url : String) (mode : Bool) (inputs : List String),
      env.coverFetch url = .error () →
      (get_cover_url env url mode inputs).cover = none ∧
      (get_cover_url env url mode inputs).errLog ≠ []) ∧
    (∀ (env : Env) (now dateYMD timeHMS : String) (index : Nat) (row : Row)
        (rest : List (Nat × Row)) (mode : Bool) (inputs : List String),
      driver_skips index row = false →
      (run_rows env now dateYMD timeHMS ((index, row) :: rest) mode
          inputs).audit =
        (process_row env now dateYMD timeHMS index row mode inputs).audit ++
          (run_rows env now dateYMD timeHMS rest
            (process_row env now dateYMD timeHMS index row mode inputs).mode
            (process_row env now dateYMD timeHMS index row mode
              inputs).inputs).audit) := by
  refine ⟨?_, ?_, ?_, ?_⟩
  · intro env name mode inputs h
    unfold search_online_bdgest
    simp [h]
  · intro env name mode inputs h
    unfold search_online_bdgest
    cases him : env.importOk with
    | false => simp
    | true =>
      simp only [if_true]
      rcases hw : wait_for_user mode inputs with ⟨m, i⟩
      rw [h]
      simp
  · intro env url mode inputs h
    unfold get_cover_url
    rw [h]
    simp
  · intro env now dateYMD timeHMS index row rest mode inputs h
    conv_lhs => rw [run_rows]
    simp [h]

/-- C5 witness: concrete failing environments for the import fetch, the
search fetch and the cover fetch, and a concrete continued run. -/
theorem C5_fetch_failure_recovery_witness :
    ((search_online_bdgest envFail "Tintin" false []).link = none ∧
      (search_online_bdgest envFail "Tintin" false []).errLog ≠ []) ∧
    ((search_online_bdgest
        { importOk := true, searchPage := fun _ => .error (),
          albumFetch := fun _ => .error (), coverFetch := fun _ => .error (),
          urljoin := fun _ h => h } "Tintin" false []).link = none ∧
      (search_online_bdgest
        { importOk := true, searchPage := fun _ => .error (),
          albumFetch := fun _ => .error (), coverFetch := fun _ => .error (),
          urljoin := fun _ h => h } "Tintin" false []).errLog ≠ []) ∧
    ((get_cover_url envFail "https://www.bedetheque.com/serie-1" false
        []).cover = none ∧
      (get_cover_url envFail "https://www.bedetheque.com/serie-1" false
        []).errLog ≠ []) ∧
    (run_rows envFail "n" "d" "t"
        [(3, { title := some "Tintin", link := none, cover := none })] false
        []).audit =
      (process_row envFail "n" "d" "t" 3
        { title := some "Tintin", link := none, cover := none } false
        []).audit ++
        (run_rows envFail "n" "d" "t" []
          (process_row envFail "n" "d" "t" 3
            { title := some "Tintin", link := none, cover := none } false
            []).mode
          (process_row envFail "n" "d" "t" 3
            { title := some "Tintin", link := none, cover := none } false
            []).inputs).audit :=
  ⟨C5_fetch_failure_recovery.1 envFail "Tintin" false [] rfl,
    C5_fetch_failure_recovery.2.1 _ "Tintin" false [] rfl,
    C5_fetch_failure_recovery.2.2.1 envFail
      "https://www.bedetheque.com/serie-1" false [] rfl,
    C5_fetch_failure_recovery.2.2.2 envFail "n" "d" "t" 3
      { title := some "Tintin", link := none, cover := none } [] false []
      (by decide)⟩

/-- C8: every processed row (trimmed title non-empty) produces exactly one
terminal status line and exactly one audit entry, whose comma-separated
fields appear in the fixed order date, time, literal `"Row"`, row index,
title, prior link or `"empty"`, outcome text, search URL or `"empty"`,
cover URL or `"empty"`. -/
theorem C8_audit_line (env : Env) (now dateYMD timeHMS : String)
    (index : Nat) (row : Row) (mode : Bool) (inputs : List String)
    (hname : trimS (cellToStr row.title) ≠ "") :
    (process_row env now dateYMD timeHMS index row mode
        inputs).terminal.length = 1 ∧
    ∃ outcomeText searchField coverField : String,
      (process_row env now dateYMD timeHMS index row mode inputs).audit =
        [[dateYMD, timeHMS, "Row", toString index,
          trimS (cellToStr row.title),
          fieldOrEmpty (trimS (cellToStr row.link)), outcomeText, searchField,
          coverField]] := by
  unfold process_row
  simp only [hname, if_false, List.length_singleton]
  exact ⟨trivial, _, _, _, rfl⟩

/-- C8 witness: a concrete skip-complete row still yields one status line
and one well-formed audit entry. -/
theorem C8_audit_line_witness :
    (process_row envFail "n" "d" "t" 7
        { title := some "Tintin",
          link := some "https://www.bedetheque.com/serie-1",
          cover := some "https://www.bedetheque.com/c.jpg" } false
        []).terminal.length = 1 ∧
    ∃ outcomeText searchField coverField : String,
      (process_row envFail "n" "d" "t" 7
          { title := some "Tintin",
            link := some "https://www.bedetheque.com/serie-1",
            cover := some "https://www.bedetheque.com/c.jpg" } false
          []).audit =
        [["d", "t", "Row", "7", "Tintin",
          fieldOrEmpty (trimS (cellToStr (some
            "https://www.bedetheque.com/serie-1"))), outcomeText, searchField,
          coverField]] :=
  C8_audit_line envFail "n" "d" "t" 7
    { title := some "Tintin",
      link := some "https://www.bedetheque.com/serie-1",
      cover := some "https://www.bedetheque.com/c.jpg" } false []
    (by decide)

/-- C2: the ordered decision table of resolve: link present and cover valid
gives skip-complete (no lookup, no write); link present and cover invalid
gives exactly one cover lookup against the existing link, and only the
cover may be written; link absent gives exactly one search by title, and on
a (truthy) match the link is written and one cover lookup against the
matched URL may write the cover, while on no match nothing is written and
no cover lookup happens. -/
theorem C2_decision_table (env : Env) (now dateYMD timeHMS : String)
    (index : Nat) (row : Row) (mode : Bool) (inputs : List String)
    (hname : trimS (cellToStr row.title) ≠ "") :
    (trimS (cellToStr row.link) ≠ "" →
      is_valid_cover (some (trimS (cellToStr row.cover))) = true →
      (process_row env now dateYMD timeHMS index row mode
          inputs).searchCalls = 0 ∧
      (process_row env now dateYMD timeHMS index row mode inputs).coverCalls =
        0 ∧
      (process_row env now dateYMD timeHMS index row mode inputs).linkUpdate =
        none ∧
      (process_row env now dateYMD timeHMS index row mode
          inputs).coverUpdate = none) ∧
    (trimS (cellToStr row.link) ≠ "" →
      is_valid_cover (some (trimS (cellToStr row.cover))) = false →
      (process_row env now dateYMD timeHMS index row mode
          inputs).searchCalls = 0 ∧
      (process_row env now dateYMD timeHMS index row mode inputs).coverCalls =
        1 ∧
      (process_row env now dateYMD timeHMS index row mode inputs).linkUpdate =
        none ∧
      (process_row env now dateYMD timeHMS index row mode
          inputs).coverUpdate =
        (if optTruthy (get_cover_url env (trimS (cellToStr row.link)) mode
            inputs).cover = true
          then (get_cover_url env (trimS (cellToStr row.link)) mode
            inputs).cover
          else none)) ∧
    (trimS (cellToStr row.link) = "" →
      (process_row env now dateYMD timeHMS index row mode
          inputs).searchCalls = 1 ∧
      (optTruthy (search_online_bdgest env (trimS (cellToStr row.title)) mode
          inputs).link = true →
        (process_row env now dateYMD timeHMS index row mode
            inputs).linkUpdate =
          some ((search_online_bdgest env (trimS (cellToStr row.title)) mode
            inputs).link.getD "") ∧
        (process_row env now dateYMD timeHMS index row mode
            inputs).coverCalls = 1 ∧
        (process_row env now dateYMD timeHMS index row mode
            inputs).coverUpdate =
          (if optTruthy (get_cover_url env
              ((search_online_bdgest env (trimS (cellToStr row.title)) mode
                inputs).link.getD "")
              (search_online_bdgest env (trimS (cellToStr row.title)) mode
                inputs).mode
              (search_online_bdgest env (trimS (cellToStr row.title)) mode
                inputs).inputs).cover = true
            then (get_cover_url env
              ((search_online_bdgest env (trimS (cellToStr row.title)) mode
                inputs).link.getD "")
              (search_online_bdgest env (trimS (cellToStr row.title)) mode
                inputs).mode
              (search_online_bdgest env (trimS (cellToStr row.title)) mode
                inputs).inputs).cover
            else none)) ∧
      (optTruthy (search_online_bdgest env (trimS (cellToStr row.title)) mode
          inputs).link = false →
        (process_row env now dateYMD timeHMS index row mode
            inputs).linkUpdate = none ∧
        (process_row env now dateYMD timeHMS index row mode
            inputs).coverUpdate = none ∧
        (process_row env now dateYMD timeHMS index row mode
            inputs).coverCalls = 0)) := by
  refine ⟨?_, ?_, ?_⟩
  · intro hl hv
    simp [process_row, hname, row_cases, hl, hv]
  · intro hl hv
    cases hco : optTruthy (get_cover_url env (trimS (cellToStr row.link))
        mode inputs).cover with
    | false => simp [process_row, hname, row_cases, hl, hv, hco]
    | true => simp [process_row, hname, row_cases, hl, hv, hco]
  · intro hl
    refine ⟨?_, ?_, ?_⟩
    · simp [process_row, hname, row_cases, hl]
      cases hso : optTruthy (search_online_bdgest env
          (trimS (cellToStr row.title)) mode inputs).link <;> simp [hso]
    · intro hso
      cases hco : optTruthy (get_cover_url env
          ((search_online_bdgest env (trimS (cellToStr row.title)) mode
            inputs).link.getD "")
          (search_online_bdgest env (trimS (cellToStr row.title)) mode
            inputs).mode
          (search_online_bdgest env (trimS (cellToStr row.title)) mode
            inputs).inputs).cover with
      | false => simp [process_row, hname, row_cases, hl, hso, hco]
      | true => simp [process_row, hname, row_cases, hl, hso, hco]
    · intro hso
      simp [process_row, hname, row_cases, hl, hso]

/-- C2 witness: the skip-complete case of the decision table at a concrete
complete row. -/
theorem C2_decision_table_witness :
    (process_row envFail "n" "d" "t" 4
        { title := some "Tintin",
          link := some "https://www.bedetheque.com/serie-1",
          cover := some "https://www.bedetheque.com/c.jpg" } false
        []).searchCalls = 0 ∧
    (process_row envFail "n" "d" "t" 4
        { title := some "Tintin",
          link := some "https://www.bedetheque.com/serie-1",
          cover := some "https://www.bedetheque.com/c.jpg" } false
        []).coverCalls = 0 ∧
    (process_row envFail "n" "d" "t" 4
        { title := some "Tintin",
          link := some "https://www.bedetheque.com/serie-1",
          cover := some "https://www.bedetheque.com/c.jpg" } false
        []).linkUpdate = none ∧
    (process_row envFail "n" "d" "t" 4
        { title := some "Tintin",
          link := some "https://www.bedetheque.com/serie-1",
          cover := some "https://www.bedetheque.com/c.jpg" } false
        []).coverUpdate = none :=
  (C2_decision_table envFail "n" "d" "t" 4
    { title := some "Tintin",
      link := some "https://www.bedetheque.com/serie-1",
      cover := some "https://www.bedetheque.com/c.jpg" } false []
    (by decide)).1 (by decide) (by decide)

/-- A non-eligible or already-complete row performs no lookup and writes no
cell. -/
theorem process_row_complete (env : Env) (now dateYMD timeHMS : String)
    (index : Nat) (row : Row) (mode : Bool) (inputs : List String)
    (h : trimS (cellToStr row.title) ≠ "" →
      trimS (cellToStr row.link) ≠ "" ∧
      is_valid_cover (some (trimS (cellToStr row.cover))) = true) :
    (process_row env now dateYMD timeHMS index row mode inputs).searchCalls =
      0 ∧
    (process_row env now dateYMD timeHMS index row mode inputs).coverCalls =
      0 ∧
    (process_row env now dateYMD timeHMS index row mode inputs).linkUpdate =
      none ∧
    (process_row env now dateYMD timeHMS index row mode inputs).coverUpdate =
      none := by
  by_cases ht : trimS (cellToStr row.title) = ""
  · simp [process_row, ht]
  · obtain ⟨hl, hv⟩ := h ht
    simp [process_row, ht, row_cases, hl, hv]

/-- A row outcome with no cell writes leaves the row unchanged. -/
theorem applyOutcome_id (row : Row) (o : RowOutcome)
    (h1 : o.linkUpdate = none) (h2 : o.coverUpdate = none) :
    applyOutcome row o = row := by
  cases row
  simp [applyOutcome, h1, h2]

/-- C7: a run over a table in which every eligible row (index at least 3,
title present and non-blank) already has a non-empty link and a valid cover
performs zero search calls, zero cover calls and zero cell mutations, and
returns the table unchanged. -/
theorem C7_idempotent_run (env : Env) (now dateYMD timeHMS : String)
    (rows : List (Nat × Row)) (mode : Bool) (inputs : List String)
    (hcomplete : ∀ p ∈ rows, 3 ≤ p.1 → p.2.title ≠ none →
      trimS (cellToStr p.2.title) ≠ "" →
      trimS (cellToStr p.2.link) ≠ "" ∧
      is_valid_cover (some (trimS (cellToStr p.2.cover))) = true) :
    (run_rows env now dateYMD timeHMS rows mode inputs).searchCalls = 0 ∧
    (run_rows env now dateYMD timeHMS rows mode inputs).coverCalls = 0 ∧
    (run_rows env now dateYMD timeHMS rows mode inputs).mutations = 0 ∧
    (run_rows env now dateYMD timeHMS rows mode inputs).table = rows := by
  revert hcomplete
  induction rows generalizing mode inputs with
  | nil => intro _h; exact ⟨rfl, rfl, rfl, rfl⟩
  | cons p rest ih =>
    intro hcomplete
    rcases p with ⟨index, row⟩
    have hrest : ∀ p ∈ rest, 3 ≤ p.1 → p.2.title ≠ none →
        trimS (cellToStr p.2.title) ≠ "" →
        trimS (cellToStr p.2.link) ≠ "" ∧
        is_valid_cover (some (trimS (cellToStr p.2.cover))) = true :=
      fun p hp => hcomplete p (List.mem_cons_of_mem _ hp)
    by_cases hs : driver_skips index row = true
    · obtain ⟨h1, h2, h3, h4⟩ := ih mode inputs hrest
      simp only [run_rows, hs, if_true]
      exact ⟨h1, h2, h3, by rw [h4]⟩
    · have hs' : driver_skips index row = false := by
        cases hd : driver_skips index row
        · rfl
        · exact absurd hd hs
      have hidx : 3 ≤ index := by
        by_contra hlt
        apply hs
        simp [driver_skips]
        omega
      have htit : row.title ≠ none := by
        intro hnone
        apply hs
        simp [driver_skips, hnone]
      have hpr := process_row_complete env now dateYMD timeHMS index row mode
        inputs (hcomplete (index, row) (List.mem_cons_self _ _) hidx htit)
      obtain ⟨p1, p2, p3, p4⟩ := hpr
      obtain ⟨r1, r2, r3, r4⟩ := ih
        (process_row env now dateYMD timeHMS index row mode inputs).mode
        (process_row env now dateYMD timeHMS index row mode inputs).inputs
        hrest
      simp only [run_rows, hs', Bool.false_eq_true, if_false]
      refine ⟨?_, ?_, ?_, ?_⟩
      · rw [p1, r1]
      · rw [p2, r2]
      · rw [r3]
        simp [countUpd, p3, p4]
      · rw [applyOutcome_id row _ p3 p4, r4]

/-- C7 witness: a concrete table (header row, complete row, blank-title
row), second run performs no lookups and no mutations. -/
theorem C7_idempotent_run_witness :
    (run_rows envFail "n" "d" "t"
        [(0, { title := some "Titre", link := none, cover := none }),
         (3, { title := some "Tintin",
               link := some "https://www.bedetheque.com/serie-1",
               cover := some "https://www.bedetheque.com/c.jpg" }),
         (4, { title := some "   ", link := none, cover := none })] true
        ["x"]).searchCalls = 0 ∧
    (run_rows envFail "n" "d" "t"
        [(0, { title := some "Titre", link := none, cover := none }),
         (3, { title := some "Tintin",
               link := some "https://www.bedetheque.com/serie-1",
               cover := some "https://www.bedetheque.com/c.jpg" }),
         (4, { title := some "   ", link := none, cover := none })] true
        ["x"]).coverCalls = 0 ∧
    (run_rows envFail "n" "d" "t"
        [(0, { title := some "Titre", link := none, cover := none }),
         (3, { title := some "Tintin",
               link := some "https://www.bedetheque.com/serie-1",
               cover := some "https://www.bedetheque.com/c.jpg" }),
         (4, { title := some "   ", link := none, cover := none })] true
        ["x"]).mutations = 0 ∧
    (run_rows envFail "n" "d" "t"
        [(0, { title := some "Titre", link := none, cover := none }),
         (3, { title := some "Tintin",
               link := some "https://www.bedetheque.com/serie-1",
               cover := some "https://www.bedetheque.com/c.jpg" }),
         (4, { title := some "   ", link := none, cover := none })] true
        ["x"]).table =
      [(0, { title := some "Titre", link := none, cover := none }),
       (3, { title := some "Tintin",
             link := some "https://www.bedetheque.com/serie-1",
             cover := some "https://www.bedetheque.com/c.jpg" }),
       (4, { title := some "   ", link := none, cover := none })] :=
  C7_idempotent_run envFail "n" "d" "t"
    [(0, { title := some "Titre", link := none, cover := none }),
     (3, { title := some "Tintin",
           link := some "https://www.bedetheque.com/serie-1",
           cover := some "https://www.bedetheque.com/c.jpg" }),
     (4, { title := some "   ", link := none, cover := none })] true ["x"]
    (by decide)

/-- If no href of a result list contains `bedetheque.com` and every
`/album/` href resolves to no (truthy) bedetheque link, the link scan comes
back empty. -/
theorem scanLinks_clean (env : Env) (mode : Bool) (hrefs : List String)
    (inputs : List String)
    (h : ∀ href ∈ hrefs, strHas href "bedetheque.com" = false ∧
      (strHas href "/album/" = true →
        optTruthy (album_link_result env (env.urljoin BASE_URL href)) =
          false)) :
    (scanLinks env mode hrefs inputs).1 = none := by
  induction hrefs generalizing inputs with
  | nil => rfl
  | cons href rest ih =>
    obtain ⟨hbd, halb⟩ := h href (List.mem_cons_self _ _)
    have hrest : ∀ href ∈ rest, strHas href "bedetheque.com" = false ∧
        (strHas href "/album/" = true →
          optTruthy (album_link_result env (env.urljoin BASE_URL href)) =
            false) :=
      fun x hx => h x (List.mem_cons_of_mem _ hx)
    simp only [scanLinks, hbd, Bool.false_eq_true, if_false]
    by_cases hal : strHas href "/album/" = true
    · have hlink : optTruthy (get_bedetheque_link_from_album env
          (env.urljoin BASE_URL href) mode inputs).link = false := by
        rw [album_link_eq]
        exact halb hal
      simp only [hal, if_true, hlink, Bool.false_eq_true, if_false]
      rcases hsl : scanLinks env mode rest (get_bedetheque_link_from_album env
          (env.urljoin BASE_URL href) mode inputs).inputs with ⟨r, i2, e2⟩
      have hr := ih (get_bedetheque_link_from_album env
        (env.urljoin BASE_URL href) mode inputs).inputs hrest
      rw [hsl] at hr
      simpa using hr
    · have hal' : strHas href "/album/" = false := by
        cases hx : strHas href "/album/"
        · rfl
        · exact absurd hx hal
      simp only [hal', Bool.false_eq_true, if_false]
      exact ih inputs hrest

/-- If every result in the scanned list is clean in the sense of
`scanLinks_clean`, the result scan comes back empty. -/
theorem scanResults_clean (env : Env) (mode : Bool) (rs : List SearchResult)
    (inputs : List String)
    (h : ∀ r ∈ rs, ∀ href ∈ r.hrefs, strHas href "bedetheque.com" = false ∧
      (strHas href "/album/" = true →
        optTruthy (album_link_result env (env.urljoin BASE_URL href)) =
          false)) :
    (scanResults env mode rs inputs).1 = none := by
  induction rs generalizing inputs with
  | nil => rfl
  | cons r rest ih =>
    have hr := scanLinks_clean env mode r.hrefs inputs
      (h r (List.mem_cons_self _ _))
    rcases hsl : scanLinks env mode r.hrefs inputs with ⟨res, i2, e2⟩
    rw [hsl] at hr
    simp only at hr
    subst hr
    simp only [scanResults, hsl]
    rcases hsr : scanResults env mode rest i2 with ⟨res2, i3, e3⟩
    have h2 := ih i2 (fun x hx => h x (List.mem_cons_of_mem _ hx))
    rw [hsr] at h2
    simpa using h2

/-- C9: the search inspects only the first three candidate results; if none
of those three yields a bedetheque link (directly or through an `/album/`
page), the search returns no match — regardless of any usable link in the
fourth or later candidates. -/
theorem C9_first_three_results (env : Env) (name : String) (mode : Bool)
    (inputs : List String) (page : SearchPage)
    (him : env.importOk = true)
    (hpage : env.searchPage name = .ok page)
    (h3 : ∀ r ∈ page.results.take 3, ∀ href ∈ r.hrefs,
      strHas href "bedetheque.com" = false ∧
      (strHas href "/album/" = true →
        optTruthy (album_link_result env (env.urljoin BASE_URL href)) =
          false)) :
    (search_online_bdgest env name mode inputs).link = none := by
  unfold search_online_bdgest
  simp only [him, if_true]
  rcases hw : wait_for_user mode inputs with ⟨m1, i1⟩
  rw [hpage]
  dsimp only
  rcases hw2 : wait_for_user m1 i1 with ⟨m2, i2⟩
  by_cases he : page.results.isEmpty
  · simp [he]
  · simp only [he, Bool.false_eq_true, if_false]
    rcases hsr : scanResults env m2 (page.results.take 3) i2 with ⟨res, i3, e3⟩
    have hres := scanResults_clean env m2 (page.results.take 3) i2 h3
    rw [hsr] at hres
    simp only at hres
    subst hres
    simp [hsr]

/-- Environment for the C9 witness: four candidates, the only bedetheque
link sits in the fourth. -/
def envW9 : Env :=
  { importOk := true,
    searchPage := fun _ => .ok
      { results :=
          [{ text := "Tintin", hrefs := ["https://online.bdgest.com/x1"] },
           { text := "Tintin 2", hrefs := [] },
           { text := "Tintin 3", hrefs := ["https://online.bdgest.com/x3"] },
           { text := "Tintin 4",
             hrefs := ["https://www.bedetheque.com/serie-4"] }],
        url := "https://online.bdgest.com/albums/import?s=Tintin" },
    albumFetch := fun _ => .error (),
    coverFetch := fun _ => .error (),
    urljoin := fun _ h => h }

/-- C9 witness: with the only bedetheque link in the fourth candidate, the
search returns no match. -/
theorem C9_first_three_results_witness :
    (search_online_bdgest envW9 "Tintin" false []).link = none :=
  C9_first_three_results envW9 "Tintin" false []
    { results :=
        [{ text := "Tintin", hrefs := ["https://online.bdgest.com/x1"] },
         { text := "Tintin 2", hrefs := [] },
         { text := "Tintin 3", hrefs := ["https://online.bdgest.com/x3"] },
         { text := "Tintin 4",
           hrefs := ["https://www.bedetheque.com/serie-4"] }],
      url := "https://online.bdgest.com/albums/import?s=Tintin" }
    rfl rfl (by decide)

/-- Rewrite a candidate's display text, keeping its links. -/
def retext (f : String → String) (r : SearchResult) : SearchResult :=
  { text := f r.text, hrefs := r.hrefs }

/-- The same environment with every candidate's display text rewritten by
`f` (links, URLs and all other oracles untouched). -/
def setTexts (f : String → String) (env : Env) : Env :=
  { env with searchPage := fun q =>
      match env.searchPage q with
      | .error e => .error e
      | .ok p => .ok { results := p.results.map (retext f), url := p.url } }

theorem scanLinks_setTexts (f : String → String) (env : Env) (mode : Bool)
    (hrefs : List String) (inputs : List String) :
    scanLinks (setTexts f env) mode hrefs inputs =
      scanLinks env mode hrefs inputs := by
  induction hrefs generalizing inputs with
  | nil => rfl
  | cons href rest ih =>
    simp only [scanLinks]
    have ha : get_bedetheque_link_from_album (setTexts f env)
        ((setTexts f env).urljoin BASE_URL href) mode inputs =
        get_bedetheque_link_from_album env (env.urljoin BASE_URL href) mode
          inputs := rfl
    rw [ha]
    by_cases h1 : strHas href "bedetheque.com" = true
    · simp [h1]
    · have h1' : strHas href "bedetheque.com" = false := by
        cases hx : strHas href "bedetheque.com"
        · rfl
        · exact absurd hx h1
      simp only [h1', Bool.false_eq_true, if_false]
      by_cases h2 : strHas href "/album/" = true
      · simp only [h2, if_true]
        by_cases h3 : optTruthy (get_bedetheque_link_from_album env
            (env.urljoin BASE_URL href) mode inputs).link = true
        · simp [h3]
        · have h3' : optTruthy (get_bedetheque_link_from_album env
              (env.urljoin BASE_URL href) mode inputs).link = false := by
            cases hx : optTruthy (get_bedetheque_link_from_album env
                (env.urljoin BASE_URL href) mode inputs).link
            · rfl
            · exact absurd hx h3
          simp only [h3', Bool.false_eq_true, if_false]
          rw [ih]
      · have h2' : strHas href "/album/" = false := by
          cases hx : strHas href "/album/"
          · rfl
          · exact absurd hx h2
        simp only [h2', Bool.false_eq_true, if_false]
        exact ih inputs

theorem scanResults_setTexts (f : String → String) (env : Env) (mode : Bool)
    (rs : List SearchResult) (inputs : List String) :
    scanResults (setTexts f env) mode (rs.map (retext f)) inputs =
      scanResults env mode rs inputs := by
  induction rs generalizing inputs with
  | nil => rfl
  | cons r rest ih =>
    simp only [List.map_cons, scanResults, retext, scanLinks_setTexts]
    rcases hsl : scanLinks env mode r.hrefs inputs with ⟨res, i2, e2⟩
    cases res with
    | none => simp [ih]
    | some u => rfl

theorem search_setTexts (f : String → String) (env : Env) (name : String)
    (mode : Bool) (inputs : List String) :
    search_online_bdgest (setTexts f env) name mode inputs =
      search_online_bdgest env name mode inputs := by
  unfold search_online_bdgest
  have him : (setTexts f env).importOk = env.importOk := rfl
  rw [him]
  cases h : env.importOk with
  | false => simp
  | true =>
    simp only [if_true]
    rcases hw : wait_for_user mode inputs with ⟨m1, i1⟩
    have hsp : (setTexts f env).searchPage name =
        match env.searchPage name with
        | .error e => .error e
        | .ok p => .ok { results := p.results.map (retext f), url := p.url } :=
      rfl
    cases hp : env.searchPage name with
    | error e =>
      rw [hsp, hp]
    | ok page =>
      rw [hsp, hp]
      dsimp only
      rcases hw2 : wait_for_user m1 i1 with ⟨m2, i2⟩
      have hie : (page.results.map (retext f)).isEmpty =
          page.results.isEmpty := by
        cases page.results <;> rfl
      rw [hie]
      by_cases he : page.results.isEmpty
      · simp [he]
      · simp only [he, Bool.false_eq_true, if_false]
        rw [← List.map_take, scanResults_setTexts]

/-- The search rule of the amended claim, written from its words for
comparison with the code's scan: the first href of a candidate that either
contains `bedetheque.com` itself, or contains `/album/` and whose album
page yields a (truthy) bedetheque link, determines the candidate's link. -/
def specScanLinks (env : Env) : List String → Option String
  | [] => none
  | href :: rest =>
    if strHas href "bedetheque.com" then some href
    else if strHas href "/album/" then
      if optTruthy (album_link_result env (env.urljoin BASE_URL href)) then
        album_link_result env (env.urljoin BASE_URL href)
      else specScanLinks env rest
    else specScanLinks env rest

/-- The candidate rule of the amended claim, written from its words: the
first candidate of the scanned list that yields a bedetheque link wins;
none of them yielding one means no match. -/
def specScanResults (env : Env) : List SearchResult → Option String
  | [] => none
  | r :: rest =>
    match specScanLinks env r.hrefs with
    | some u => some u
    | none => specScanResults env rest

/-- The link component of the code's href scan is exactly the spec-side
rule: it does not depend on the mode or the input stream. -/
theorem scanLinks_fst (env : Env) (mode : Bool) (hrefs : List String)
    (inputs : List String) :
    (scanLinks env mode hrefs inputs).1 = specScanLinks env hrefs := by
  induction hrefs generalizing inputs with
  | nil => rfl
  | cons href rest ih =>
    simp only [scanLinks, specScanLinks]
    by_cases h1 : strHas href "bedetheque.com" = true
    · simp [h1]
    · have h1' : strHas href "bedetheque.com" = false := by
        cases hx : strHas href "bedetheque.com"
        · rfl
        · exact absurd hx h1
      simp only [h1', Bool.false_eq_true, if_false]
      by_cases h2 : strHas href "/album/" = true
      · simp only [h2, if_true]
        have ha := album_link_eq env (env.urljoin BASE_URL href) mode inputs
        by_cases h3 : optTruthy (album_link_result env
            (env.urljoin BASE_URL href)) = true
        · have h3l : optTruthy (get_bedetheque_link_from_album env
              (env.urljoin BASE_URL href) mode inputs).link = true := by
            rw [ha]
            exact h3
          simp [h3l, h3, ha]
        · have h3' : optTruthy (album_link_result env
              (env.urljoin BASE_URL href)) = false := by
            cases hx : optTruthy (album_link_result env
                (env.urljoin BASE_URL href))
            · rfl
            · exact absurd hx h3
          rw [← ha] at h3'
          simp only [h3', Bool.false_eq_true, if_false]
          rw [ha] at h3'
          rcases hsl : scanLinks env mode rest (get_bedetheque_link_from_album
              env (env.urljoin BASE_URL href) mode inputs).inputs with
            ⟨r, i2, e2⟩
          have hr := ih (get_bedetheque_link_from_album env
            (env.urljoin BASE_URL href) mode inputs).inputs
          rw [hsl] at hr
          simpa [h3'] using hr
      · have h2' : strHas href "/album/" = false := by
          cases hx : strHas href "/album/"
          · rfl
          · exact absurd hx h2
        simp only [h2', Bool.false_eq_true, if_false]
        exact ih inputs

/-- The link component of the code's candidate scan is exactly the
spec-side first-match rule. -/
theorem scanResults_fst (env : Env) (mode : Bool) (rs : List SearchResult)
    (inputs : List String) :
    (scanResults env mode rs inputs).1 = specScanResults env rs := by
  induction rs generalizing inputs with
  | nil => rfl
  | cons r rest ih =>
    simp only [scanResults, specScanResults]
    rcases hsl : scanLinks env mode r.hrefs inputs with ⟨res, i2, e2⟩
    have hres := scanLinks_fst env mode r.hrefs inputs
    rw [hsl] at hres
    simp only at hres
    subst hres
    cases hspec : specScanLinks env r.hrefs with
    | some u => simp [hspec]
    | none =>
      simp only [hspec]
      rcases hsr : scanResults env mode rest i2 with ⟨res2, i3, e3⟩
      have h2 := ih i2
      rw [hsr] at h2
      simpa using h2

/-- C1 amended: the search performed for a record with empty link ignores
candidate display text entirely — its outcome and every observable output
are invariant under arbitrary rewriting of all display texts; whenever the
search page is fetched, the returned link is exactly the spec-side rule
`specScanResults` applied to the first three candidates — the first
candidate among the first three that yields a bedetheque link (an href
containing `bedetheque.com`, or an `/album/` href whose album page yields
one) wins, wherever in the candidate's href list the match sits, and with
no comparison of display text to the title; and when the search yields no
link the outcome is `not Found` and no field of the record is mutated. -/
theorem C1_search_ignores_display_text :
    (∀ (f : String → String) (env : Env) (name : String) (mode : Bool)
        (inputs : List String),
      search_online_bdgest (setTexts f env) name mode inputs =
        search_online_bdgest env name mode inputs) ∧
    (∀ (env : Env) (name : String) (mode : Bool) (inputs : List String)
        (page : SearchPage),
      env.importOk = true →
      env.searchPage name = .ok page →
      (search_online_bdgest env name mode inputs).link =
        specScanResults env (page.results.take 3)) ∧
    (∀ (env : Env) (now dateYMD timeHMS : String) (index : Nat) (row : Row)
        (mode : Bool) (inputs : List String),
      trimS (cellToStr row.title) ≠ "" →
      trimS (cellToStr row.link) = "" →
      optTruthy (search_online_bdgest env (trimS (cellToStr row.title)) mode
        inputs).link = false →
      (process_row env now dateYMD timeHMS index row mode inputs).linkUpdate =
        none ∧
      (process_row env now dateYMD timeHMS index row mode
          inputs).coverUpdate = none ∧
      (process_row env now dateYMD timeHMS index row mode inputs).audit =
        [[dateYMD, timeHMS, "Row", toString index,
          trimS (cellToStr row.title), "empty", "not Found",
          fieldOrEmpty (search_online_bdgest env (trimS (cellToStr row.title))
            mode inputs).searchUrl, "empty"]]) := by
  refine ⟨search_setTexts, ?_, ?_⟩
  · intro env name mode inputs page him hpage
    unfold search_online_bdgest
    simp only [him, if_true]
    rcases hw : wait_for_user mode inputs with ⟨m1, i1⟩
    rw [hpage]
    dsimp only
    rcases hw2 : wait_for_user m1 i1 with ⟨m2, i2⟩
    cases hres : page.results with
    | nil => simp [specScanResults]
    | cons r rs =>
      simp only [List.isEmpty_cons, Bool.false_eq_true, if_false]
      rcases hsr : scanResults env m2 (List.take 3 (r :: rs)) i2 with
        ⟨res, i3, e3⟩
      have hchar := scanResults_fst env m2 (List.take 3 (r :: rs)) i2
      rw [hsr] at hchar
      simp only at hchar
      subst hchar
      simp [hsr]
  · intro env now dateYMD timeHMS index row mode inputs hname hlink hnf
    refine ⟨?_, ?_, ?_⟩
    · simp [process_row, hname, row_cases, hlink, hnf]
    · simp [process_row, hname, row_cases, hlink, hnf]
    · simp [process_row, hname, row_cases, hlink, hnf, fieldOrEmpty]

/-- The C1 counterexample candidate: display text `"Bar"`, one bedetheque
link. -/
def candC1 : SearchResult :=
  { text := "Bar", hrefs := ["https://www.bedetheque.com/serie-123"] }

/-- The C1 counterexample search-results page: one candidate. -/
def pageC1 : SearchPage :=
  { results := [candC1],
    url := "https://online.bdgest.com/albums/import?s=Foo" }

/-- Environment for the C1 counterexample: one candidate whose display text
does not match the searched title under any case/whitespace folding, but
which carries a bedetheque link. -/
def envC1 : Env :=
  { importOk := true,
    searchPage := fun _ => .ok pageC1,
    albumFetch := fun _ => .error (),
    coverFetch := fun _ => .error (),
    urljoin := fun _ h => h }

/-- Record for the C1 counterexample: empty link, title `"Foo"`. -/
def rowC1 : Row :=
  { title := some "Foo", link := none, cover := none }

/-- C1 counterexample: the only candidate's display text `"Bar"` does not
equal the title `"Foo"` under case-insensitive whitespace-trimmed
comparison, yet resolve accepts it and writes its URL into the link field —
the claimed outcome (`not_found`, no mutation) does not occur. -/
theorem C1_counterexample :
    lowerS (trimS "Bar") ≠ lowerS (trimS "Foo") ∧
    (process_row envC1 "n" "d" "t" 3 rowC1 false []).linkUpdate =
      some "https://www.bedetheque.com/serie-123" := by
  constructor
  · decide
  · decide

/-- First candidate of the C1 witness page: no bedetheque and no album
href, so it yields nothing. -/
def candW1a : SearchResult :=
  { text := "Tintin - integrale", hrefs := ["https://online.bdgest.com/series/1"] }

/-- Second candidate of the C1 witness page: an `/album/` href whose album
page carries the bedetheque link. -/
def candW1b : SearchResult :=
  { text := "Autre", hrefs := ["https://online.bdgest.com/album/42"] }

/-- The C1 witness search-results page. -/
def pageW1 : SearchPage :=
  { results := [candW1a, candW1b],
    url := "https://online.bdgest.com/albums/import?s=Foo" }

/-- Environment for the C1 witness: the match is reached only through the
second candidate's `/album/` page. -/
def envW1 : Env :=
  { importOk := true,
    searchPage := fun _ => .ok pageW1,
    albumFetch := fun _ => .ok
      { bedethequeLinks := ["https://www.bedetheque.com/serie-77"] },
    coverFetch := fun _ => .error (),
    urljoin := fun _ h => h }

/-- C1 witness: the three parts of the amended claim at concrete inputs —
display-text invariance, acceptance of a bedetheque link reached through
the second candidate's `/album/` page (first candidate yields nothing, no
display text matches the title), and the no-mutation `not Found` outcome
when the search yields nothing. -/
theorem C1_search_ignores_display_text_witness :
    search_online_bdgest (setTexts (fun _ => "XYZ") envC1) "Foo" false [] =
      search_online_bdgest envC1 "Foo" false [] ∧
    (search_online_bdgest envW1 "Foo" false []).link =
      some "https://www.bedetheque.com/serie-77" ∧
    ((process_row envFail "n" "d" "t" 3 rowC1 false []).linkUpdate = none ∧
      (process_row envFail "n" "d" "t" 3 rowC1 false []).coverUpdate = none ∧
      (process_row envFail "n" "d" "t" 3 rowC1 false []).audit =
        [["d", "t", "Row", "3", "Foo", "empty", "not Found",
          fieldOrEmpty (search_online_bdgest envFail "Foo" false
            []).searchUrl, "empty"]]) := by
  refine ⟨C1_search_ignores_display_text.1 (fun _ => "XYZ") envC1 "Foo" false
    [], ?_, ?_⟩
  · exact (C1_search_ignores_display_text.2.1 envW1 "Foo" false [] pageW1
      rfl rfl).trans (by decide)
  · exact C1_search_ignores_display_text.2.2 envFail "n" "d" "t" 3 rowC1
      false [] (by decide) (by decide) (by decide)

end BdDoc
